import Mathlib

/- Shallow embedding of the hCaptcha click-solver core (core/api_service.py,
   core/motion.py, core/solver.py).

   Modelling conventions:
   * machine floats are modelled as ℚ where the source performs only field
     arithmetic and comparisons, and as ℝ where it uses sqrt/trigonometry;
   * external effects (HTTP transport outcomes, DOM query results, random
     draws, the token listener) become explicit parameters or oracles;
   * stateful methods become state-passing functions;
   * code paths on which the Python source can raise an uncaught exception
     return `Except Unit` with `Except.error ()` marking the raise. -/

/-- A small model of the Python/JSON values flowing through answer payloads.
    Values convertible by float() are `num` (numeric strings are represented
    directly as `num`); `str` covers non-numeric strings; `none_` is Python
    None. -/
inductive PyVal where
  | none_
  | num (q : ℚ)
  | str (s : String)
  | lst (xs : List PyVal)
  | dict (kvs : List (String × PyVal))

/-- float(v) on an answer-path element: succeeds on numbers, raises otherwise
    (`Option.none` marks the raising outcomes, which the various call sites
    either catch or propagate). -/
def pyFloat : PyVal → Option ℚ
  | PyVal.num q => some q
  | _ => Option.none

/-- float(v) at a call site where the source does NOT catch the exception. -/
def pyFloatE (v : PyVal) : Except Unit ℚ :=
  match pyFloat v with
  | some q => Except.ok q
  | Option.none => Except.error ()

/-- Python truthiness of a modelled value (empty containers are falsy). -/
def pyTruthy : PyVal → Bool
  | PyVal.none_ => false
  | PyVal.num q => decide (q ≠ 0)
  | PyVal.str s => decide (s ≠ "")
  | PyVal.lst xs => !xs.isEmpty
  | PyVal.dict kvs => !kvs.isEmpty

/-- dict.get(key) on a JSON object. -/
def getKey : List (String × PyVal) → String → Option PyVal
  | [], _ => Option.none
  | (k, v) :: rest, key => if k = key then some v else getKey rest key

/-- An element bounding box as returned by the automation layer
    (`element.bounding_box()`). -/
structure Box where
  x : ℚ
  y : ℚ
  width : ℚ
  height : ℚ
deriving DecidableEq

namespace CaptchaAPIService

/- ------------------------------------------------------------------
   CaptchaAPIService.create_task  (api_service.py lines 31-72)
   ------------------------------------------------------------------ -/

/-- Outcome of decoding the createTask HTTP response body.  `invalid` models a
    body that is not a JSON object: on such a body `response.json()` (or the
    subsequent `data.get`) raises, and that call is not inside the
    try/except in the source. -/
inductive JsonBody where
  | invalid
  | valid (errorId : Option Int) (taskId : Option String)

/-- Outcome of the POST transport for createTask. -/
inductive CreateResponse where
  | transportError
  | http (ok : Bool) (body : JsonBody)

/-- Python truthiness of data.get("errorId"): absent or zero is falsy. -/
def truthyErrorId : Option Int → Bool
  | Option.none => false
  | some v => decide (v ≠ 0)

/-- Python truthiness of data.get("taskId"): absent or empty is falsy. -/
def truthyTaskId : Option String → Bool
  | Option.none => false
  | some s => decide (s ≠ "")

/-- CaptchaAPIService.create_task: wraps the transport call; returns the task
    identifier, None on the handled failure cases, and raises
    (`Except.error ()`) when a successful HTTP response carries an
    undecodable body. -/
def create_task (resp : CreateResponse) : Except Unit (Option String) :=
  match resp with
  | CreateResponse.transportError => Except.ok Option.none
  | CreateResponse.http ok body =>
    if ok = false then Except.ok Option.none
    else
      match body with
      | JsonBody.invalid => Except.error ()
      | JsonBody.valid errorId taskId =>
        if truthyErrorId errorId then Except.ok Option.none
        else if truthyTaskId taskId = false then Except.ok Option.none
        else Except.ok taskId

/- ------------------------------------------------------------------
   CaptchaAPIService.wait_for_result  (api_service.py lines 74-111)
   ------------------------------------------------------------------ -/

/-- Result of one `_fetch_result` call: `fail` covers transport errors,
    non-success HTTP statuses and service error codes (the helper returns
    None on all of them); `ok` carries the parsed status string and the
    optional "answers" field. -/
inductive FetchResult (α : Type) where
  | fail
  | ok (status : Option String) (answers : Option α)

/-- What wait_for_result returns: None, the normalized answers, or the raw
    payload when return_raw is set. -/
inductive WaitOutcome (α : Type) where
  | none
  | answers (a : α)
  | raw (status : Option String) (answers : Option α)

/-- A fetch result that is neither "ready" nor "failed" (causes another
    sleep-and-poll cycle). -/
def nonterminal {α : Type} : FetchResult α → Bool
  | FetchResult.fail => false
  | FetchResult.ok s _ => decide (s ≠ some "ready" ∧ s ≠ some "failed")

/-- The polling loop of wait_for_result.  `fetch i` is the transport outcome
    of the i-th poll.  Carries the `elapsed` accumulator and the number of
    polls performed so far; returns the outcome, the total number of polls,
    and the list of sleeps performed (each of length `p`).  The `fuel`
    argument is an upper bound on the remaining iterations (the source's
    while-loop needs none, but it terminates only for p > 0; `wait_for_result`
    below supplies enough fuel for every p > 0, W ≥ 0). -/
def waitLoop {α : Type} (fetch : ℕ → FetchResult α) (return_raw : Bool)
    (p W : ℚ) : ℕ → ℚ → ℕ → WaitOutcome α × ℕ × List ℚ
  | 0, _, polls => (WaitOutcome.none, polls, [])
  | fuel + 1, elapsed, polls =>
    if elapsed ≤ W then
      match fetch polls with
      | FetchResult.fail => (WaitOutcome.none, polls + 1, [])
      | FetchResult.ok status answers =>
        if status = some "ready" then
          if return_raw then (WaitOutcome.raw status answers, polls + 1, [])
          else
            match answers with
            | Option.none => (WaitOutcome.none, polls + 1, [])
            | some a => (WaitOutcome.answers a, polls + 1, [])
        else if status = some "failed" then (WaitOutcome.none, polls + 1, [])
        else
          let rest := waitLoop fetch return_raw p W fuel (elapsed + p) (polls + 1)
          (rest.1, rest.2.1, p :: rest.2.2)
    else (WaitOutcome.none, polls, [])

/-- CaptchaAPIService.wait_for_result: poll at interval `p` up to budget `W`
    (loop condition `elapsed <= max_wait_time` with elapsed starting at 0). -/
def wait_for_result {α : Type} (fetch : ℕ → FetchResult α) (return_raw : Bool)
    (p W : ℚ) : WaitOutcome α × ℕ × List ℚ :=
  waitLoop fetch return_raw p W (Nat.floor (W / p) + 2) 0 0

/- ------------------------------------------------------------------
   CaptchaAPIService.request_human_move  (api_service.py lines 113-171)
   ------------------------------------------------------------------ -/

/-- Normalization of one entry of a path segment: entries that are not a
    list/tuple of length >= 2 fail structural validation and are skipped
    (`Option.none`); on structurally valid entries `float(entry[0])` /
    `float(entry[1])` are NOT guarded in the source and raise on non-numeric
    values (`Except.error`), while the delay conversion IS guarded and falls
    back to 0. -/
def normalizeEntry (entry : PyVal) : Option (Except Unit (ℚ × ℚ × ℚ)) :=
  match entry with
  | PyVal.lst (e0 :: e1 :: rest) =>
    some (
      (pyFloatE e0).bind fun x =>
      (pyFloatE e1).bind fun y =>
        let delay_ms : ℚ :=
          match rest with
          | [] => 0
          | e2 :: _ =>
            match e2 with
            | PyVal.none_ => 0
            | v => (pyFloat v).getD 0
        Except.ok (x, y, delay_ms))
  | _ => Option.none

/-- Flatten the entries of one "path" list, skipping structurally invalid
    entries and propagating the unguarded float() raises. -/
def entriesFlatten : List PyVal → Except Unit (List (ℚ × ℚ × ℚ))
  | [] => Except.ok []
  | e :: rest =>
    match normalizeEntry e with
    | Option.none => entriesFlatten rest
    | some r =>
      r.bind fun t =>
        (entriesFlatten rest).bind fun ts =>
          Except.ok (t :: ts)

/-- One segment of the humanMove answer: non-dict segments and segments whose
    "path" is not a list are skipped. -/
def flattenSegment (seg : PyVal) : Except Unit (List (ℚ × ℚ × ℚ)) :=
  match seg with
  | PyVal.dict kvs =>
    match getKey kvs "path" with
    | some (PyVal.lst entries) => entriesFlatten entries
    | _ => Except.ok []
  | _ => Except.ok []

/-- Flatten all segments of the "answers" list, in order. -/
def flattenSegments : List PyVal → Except Unit (List (ℚ × ℚ × ℚ))
  | [] => Except.ok []
  | seg :: rest =>
    (flattenSegment seg).bind fun head =>
      (flattenSegments rest).bind fun tail =>
        Except.ok (head ++ tail)

/-- CaptchaAPIService.request_human_move, parameterized by the outcome of
    create_task (`task_id`) and of wait_for_result with return_raw=True
    (`raw_result`).  Returns the normalized [x, y, delay_ms] list, None on the
    handled failure cases, and propagates the unguarded float() raises. -/
def request_human_move (task_id : Option String) (raw_result : Option PyVal) :
    Except Unit (Option (List (ℚ × ℚ × ℚ))) :=
  match task_id with
  | Option.none => Except.ok Option.none
  | some tid =>
    if tid = "" then Except.ok Option.none
    else
      match raw_result with
      | Option.none => Except.ok Option.none
      | some result =>
        if pyTruthy result = false then Except.ok Option.none
        else
          match result with
          | PyVal.dict kvs =>
            match getKey kvs "answers" with
            | some (PyVal.lst (seg :: segs)) =>
              (flattenSegments (seg :: segs)).bind fun normalized =>
                if normalized = [] then Except.ok Option.none
                else Except.ok (some normalized)
            | _ => Except.ok Option.none
          | _ => Except.ok Option.none

end CaptchaAPIService

namespace HCaptchaSolver

/- ------------------------------------------------------------------
   HCaptchaSolver answer interpretation  (solver.py lines 554-925)
   ------------------------------------------------------------------ -/

/-- One structured answer action (a JSON dict with the keys the source
    reads).  Absent keys are `Option.none`; the "path"/"start"/"end"/"target"
    values are kept as raw `PyVal`s because the source type-checks them
    dynamically.  The "type" field is modelled as the string the source
    obtains from `str(action.get("type", "")).lower()`, i.e. it is stored
    already lower-cased. -/
structure Action where
  type : Option String
  path : Option PyVal
  start : Option PyVal
  end_ : Option PyVal
  target : Option PyVal

/-- Pointer-effect events issued while executing actions.  A
    `gridCoordinateClick` stands for the `_click_grid_coordinate` call, whose
    tile resolution consults the DOM. -/
inductive MEv where
  | moveDirect (x y : ℚ) (delay : Option ℚ)
  | mouseDown
  | mouseUp
  | clickHere
  | gridCoordinateClick (x y : ℚ)
deriving DecidableEq

/-- HCaptchaSolver._point_inside_box (solver.py lines 863-875). -/
def point_inside_box (box : Box) (px py : ℚ) : Bool :=
  decide (box.x ≤ px ∧ px ≤ box.x + box.width ∧
          box.y ≤ py ∧ py ≤ box.y + box.height)

/-- The candidate point-entries the relative/absolute classifier scans for
    one value of the "path"/"start"/"end" keys (solver.py lines 890-898): a
    non-empty list whose first element is not a list is a single point;
    a list of lists is scanned element-wise; None/absent contributes nothing.
    (Values the source could not iterate without raising do not occur in
    answer payloads and are modelled as contributing no candidates; string
    and dict values iterate to non-list elements, all skipped.) -/
def candidatesOf : Option PyVal → List PyVal
  | Option.none => []
  | some (PyVal.lst []) => []
  | some (PyVal.lst (x :: xs)) =>
    match x with
    | PyVal.lst _ => x :: xs
    | _ => [PyVal.lst (x :: xs)]
  | some _ => []

/-- Extraction of one scanned coordinate: entries that are not a list of
    length >= 2, or whose first two elements do not convert with float(),
    are skipped (the source catches TypeError/ValueError here). -/
def entryPoint : PyVal → Option (ℚ × ℚ)
  | PyVal.lst (e0 :: e1 :: _) =>
    match pyFloat e0, pyFloat e1 with
    | some px, some py => some (px, py)
    | _, _ => Option.none
  | _ => Option.none

/-- All coordinates the classifier scans in one action. -/
def actionClassifierPoints (a : Action) : List (ℚ × ℚ) :=
  (candidatesOf a.path ++ candidatesOf a.start ++ candidatesOf a.end_).filterMap
    entryPoint

/-- HCaptchaSolver._is_canvas_path_relative (solver.py lines 877-909). -/
def is_canvas_path_relative (actions : List Action) (root_box : Box) : Bool :=
  if root_box.width ≤ 0 ∨ root_box.height ≤ 0 then false
  else
    actions.all fun a =>
      (actionClassifierPoints a).all fun pt =>
        !decide (pt.1 < -80 ∨ pt.2 < -80 ∨
                 pt.1 > root_box.width + 80 ∨ pt.2 > root_box.height + 80)

/-- The per-point converter closure of _execute_actions (solver.py lines
    634-648): for "Grid" a point within the grid box expanded by
    width*0.25+40 / height*0.25+40 is offset by the grid origin, otherwise by
    the frame offset; for "Canvas"/"Drag" the batch-wide `canvas_relative`
    flag selects the offset; other request types are frame-relative. -/
def point_converter (request_type : String) (root_box : Box)
    (frame_offset_x frame_offset_y : ℚ) (canvas_relative : Bool)
    (px py : ℚ) : ℚ × ℚ :=
  let grid_margin_x : ℚ := root_box.width * 0.25 + 40
  let grid_margin_y : ℚ := root_box.height * 0.25 + 40
  if request_type = "Grid" then
    if -grid_margin_x ≤ px ∧ px ≤ root_box.width + grid_margin_x ∧
       -grid_margin_y ≤ py ∧ py ≤ root_box.height + grid_margin_y then
      (root_box.x + px, root_box.y + py)
    else (frame_offset_x + px, frame_offset_y + py)
  else if request_type = "Canvas" ∨ request_type = "Drag" then
    ((if canvas_relative then root_box.x + px else frame_offset_x + px),
     (if canvas_relative then root_box.y + py else frame_offset_y + py))
  else (frame_offset_x + px, frame_offset_y + py)

/-- HCaptchaSolver._convert_action_path (solver.py lines 720-740): entries
    that are not a list of length >= 2, or on which the converter's float()
    raises, are skipped; a third element is converted to a delay in seconds
    with max(0, ms/1000), falling back to no delay. -/
def convert_action_path (conv : ℚ → ℚ → ℚ × ℚ) (path : List PyVal) :
    List (ℚ × ℚ × Option ℚ) :=
  path.filterMap fun entry =>
    match entry with
    | PyVal.lst (e0 :: e1 :: rest) =>
      match pyFloat e0, pyFloat e1 with
      | some px, some py =>
        let q := conv px py
        let delay : Option ℚ :=
          match rest with
          | [] => Option.none
          | e2 :: _ =>
            match pyFloat e2 with
            | some d => some (max 0 (d / 1000))
            | Option.none => Option.none
        some (q.1, q.2, delay)
      | _, _ => Option.none
    | _ => Option.none

/-- The raw path of one action (solver.py lines 656-669):
    `action.get("path") or []`, and for a "drag" action with an empty path a
    two-point path is synthesized from "start"/"end" with a 20 ms delay; the
    float() calls of that synthesis are unguarded and raise on non-numeric
    values. -/
def action_raw_path (action_type : String) (a : Action) :
    Except Unit (List PyVal) :=
  let raw0 : List PyVal :=
    match a.path with
    | some (PyVal.lst xs) => xs
    | _ => []
  if action_type = "drag" then
    match raw0 with
    | [] =>
      match a.start, a.end_ with
      | some (PyVal.lst (s0 :: s1 :: _)), some (PyVal.lst (e0 :: e1 :: _)) =>
        (pyFloatE s0).bind fun sx =>
        (pyFloatE s1).bind fun sy =>
        (pyFloatE e0).bind fun ex =>
        (pyFloatE e1).bind fun ey =>
          Except.ok [PyVal.lst [PyVal.num sx, PyVal.num sy, PyVal.num 20],
                     PyVal.lst [PyVal.num ex, PyVal.num ey, PyVal.num 20]]
      | _, _ => Except.ok []
    | _ => Except.ok raw0
  else Except.ok raw0

/-- The converted path of one action (solver.py lines 671-680): convert the
    raw path; when that yields nothing, fall back to the converted
    "start" (and "end") point with a 0.02 s delay — the float() inside the
    converter is unguarded on this fallback path. -/
def action_converted_path (conv : ℚ → ℚ → ℚ × ℚ) (action_type : String)
    (a : Action) : Except Unit (List (ℚ × ℚ × Option ℚ)) :=
  (action_raw_path action_type a).bind fun raw =>
    let converted := convert_action_path conv raw
    if converted = [] then
      match a.start with
      | some (PyVal.lst (f0 :: f1 :: _)) =>
        (pyFloatE f0).bind fun fx0 =>
        (pyFloatE f1).bind fun fy0 =>
          let s := conv fx0 fy0
          match a.end_ with
          | some (PyVal.lst (g0 :: g1 :: _)) =>
            (pyFloatE g0).bind fun gx0 =>
            (pyFloatE g1).bind fun gy0 =>
              let e := conv gx0 gy0
              Except.ok [(s.1, s.2, some ((1 : ℚ) / 50)),
                         (e.1, e.2, some ((1 : ℚ) / 50))]
          | _ => Except.ok [(s.1, s.2, some ((1 : ℚ) / 50))]
      | _ => Except.ok converted
    else Except.ok converted

/-- HCaptchaSolver._perform_drag_action (solver.py lines 742-758) as the
    event sequence it issues: nothing on an empty path, otherwise a delayed
    move to the first point, mouse down, the remaining moves, mouse up. -/
def perform_drag_events : List (ℚ × ℚ × Option ℚ) → List MEv
  | [] => []
  | q :: rest =>
    MEv.moveDirect q.1 q.2.1 (some (q.2.2.getD 0)) :: MEv.mouseDown ::
      (rest.map fun r => MEv.moveDirect r.1 r.2.1 r.2.2) ++ [MEv.mouseUp]

/-- The per-action body of the _execute_actions loop (solver.py lines
    653-713).  Returns the events issued, the `last_position` this action
    established (if any), and its contribution to `did_anything`. -/
def execActionStep (request_type : String) (root_box submit_box : Box)
    (frame_offset_x frame_offset_y : ℚ) (canvas_relative : Bool) (a : Action) :
    Except Unit (List MEv × Option (ℚ × ℚ) × Bool) :=
  let conv := point_converter request_type root_box frame_offset_x
    frame_offset_y canvas_relative
  let action_type := a.type.getD ""
  (action_converted_path conv action_type a).bind fun converted =>
    if action_type = "drag" then
      match converted.getLast? with
      | some q =>
        Except.ok (perform_drag_events converted, some (q.1, q.2.1), true)
      | Option.none =>
        Except.ok (perform_drag_events converted, Option.none, false)
    else
      match converted.getLast? with
      | some q =>
        let move_evs := converted.map fun r => MEv.moveDirect r.1 r.2.1 r.2.2
        if point_inside_box submit_box q.1 q.2.1 then
          Except.ok (move_evs ++
            [MEv.moveDirect q.1 q.2.1 Option.none, MEv.clickHere],
            some (q.1, q.2.1), true)
        else if request_type = "Grid" then
          Except.ok (move_evs ++ [MEv.gridCoordinateClick q.1 q.2.1],
            some (q.1, q.2.1), true)
        else
          Except.ok (move_evs ++
            [MEv.moveDirect q.1 q.2.1 Option.none, MEv.clickHere],
            some (q.1, q.2.1), true)
      | Option.none =>
        match a.target with
        | some (PyVal.lst (t0 :: t1 :: _)) =>
          (pyFloatE t0).bind fun tx0 =>
          (pyFloatE t1).bind fun ty0 =>
            let t := conv tx0 ty0
            Except.ok ([MEv.moveDirect t.1 t.2 Option.none, MEv.clickHere],
              some (t.1, t.2), true)
        | _ => Except.ok ([], Option.none, false)

/-- The action loop of _execute_actions (solver.py lines 650-716),
    accumulating `did_anything`, the issued events and `last_position`. -/
def executeLoop (request_type : String) (root_box submit_box : Box)
    (frame_offset_x frame_offset_y : ℚ) (canvas_relative : Bool) :
    List Action → Option (ℚ × ℚ) → Bool →
    Except Unit (Bool × List MEv × Option (ℚ × ℚ))
  | [], last_position, did => Except.ok (did, [], last_position)
  | a :: rest, last_position, did =>
    (execActionStep request_type root_box submit_box frame_offset_x
        frame_offset_y canvas_relative a).bind fun step =>
      (executeLoop request_type root_box submit_box frame_offset_x
          frame_offset_y canvas_relative rest
          (step.2.1.orElse fun _ => last_position) (did || step.2.2)).bind
        fun tail =>
          Except.ok (tail.1, step.1 ++ tail.2.1, tail.2.2)

/-- HCaptchaSolver._execute_actions (solver.py lines 594-718), parameterized
    by the DOM query results (the target root and submit-button boxes, both
    None when the element or its box is missing) and the frame offsets.  The
    root/frame decision for "Canvas"/"Drag" batches is computed once here. -/
def execute_actions (request_type : String) (root_box submit_box : Option Box)
    (frame_offset_x frame_offset_y : ℚ) (actions : List Action) :
    Except Unit (Bool × List MEv × Option (ℚ × ℚ)) :=
  match actions with
  | [] => Except.ok (false, [], Option.none)
  | a :: rest =>
    match root_box, submit_box with
    | some rb, some sb =>
      let canvas_relative :=
        decide (request_type = "Canvas" ∨ request_type = "Drag") &&
          is_canvas_path_relative (a :: rest) rb
      executeLoop request_type rb sb frame_offset_x frame_offset_y
        canvas_relative (a :: rest) Option.none false
    | _, _ => Except.ok (false, [], Option.none)

/- ------------------------------------------------------------------
   HCaptchaSolver._click_grid_tiles  (solver.py lines 792-813)
   ------------------------------------------------------------------ -/

/-- Python list subscription `l[i]` with its negative-index semantics:
    a negative index counts from the end; out-of-range raises IndexError. -/
def pyListIndex {α : Type} (l : List α) (i : ℤ) : Except Unit α :=
  let j : ℤ := if i < 0 then (l.length : ℤ) + i else i
  if 0 ≤ j then
    match l.get? j.toNat with
    | some v => Except.ok v
    | Option.none => Except.error ()
  else Except.error ()

/-- The index loop of _click_grid_tiles.  `tiles` holds the bounding box of
    each queried tile (None when `bounding_box()` returns nothing).
    `jitter i` is the i-th pair of random.uniform(-10, 10) draws, consumed
    once per executed click (`clicks` counts them).  An index `>= len(tiles)`
    is skipped; a tile without a box is skipped; `tiles[index]` raises for an
    index below `-len(tiles)`. -/
def clickTilesLoop (tiles : List (Option Box)) :
    List ℤ → (ℕ → ℚ × ℚ) → ℕ → Except Unit (List MEv)
  | [], _, _ => Except.ok []
  | i :: rest, jitter, clicks =>
    if (tiles.length : ℤ) ≤ i then clickTilesLoop tiles rest jitter clicks
    else
      (pyListIndex tiles i).bind fun tile =>
        match tile with
        | Option.none => clickTilesLoop tiles rest jitter clicks
        | some box =>
          let off := jitter clicks
          let tx := box.x + box.width / 2 + off.1
          let ty := box.y + box.height / 2 + off.2
          (clickTilesLoop tiles rest jitter (clicks + 1)).bind fun evs =>
            Except.ok (MEv.moveDirect tx ty Option.none :: MEv.clickHere :: evs)

/-- HCaptchaSolver._click_grid_tiles (solver.py lines 792-813), given the
    queried tiles and the index list produced by _apply_answers. -/
def click_grid_tiles (tiles : List (Option Box)) (indices : List ℤ)
    (jitter : ℕ → ℚ × ℚ) : Except Unit (List MEv) :=
  clickTilesLoop tiles indices jitter 0

/- ------------------------------------------------------------------
   HCaptchaSolver.solve  (solver.py lines 186-222)
   ------------------------------------------------------------------ -/

/-- The attempt loop of solve().  `env i` summarizes the externally
    determined outcome of iteration i: the first component is the result of
    the `wait_token(1_000)` probe, the second is a token captured by the
    network listener while the iteration body (checkbox/challenge handling)
    runs — such a token does not return from the current iteration but is in
    `self.token` from then on.  Carries the iterations entered so far and the
    current token; returns the final token and the iteration count. -/
def solveLoop (env : ℕ → Option String × Option String) :
    ℕ → ℕ → Option String → Option String × ℕ
  | 0, done, token => (token, done)
  | n + 1, done, token =>
    match token with
    | some t => (some t, done + 1)
    | Option.none =>
      match (env done).1 with
      | some t => (some t, done + 1)
      | Option.none => solveLoop env n (done + 1) (env done).2

/-- The blank-credential guard of solve():
    `not (self.api_key and str(self.api_key).strip())` holds exactly when
    every character of the key is whitespace (an empty string vacuously so,
    matching its falsiness). -/
def blankKey (api_key : String) : Bool :=
  api_key.toList.all fun c => c.isWhitespace

/-- HCaptchaSolver.solve (solver.py lines 186-222): an empty or blank API
    key aborts before the loop; otherwise the attempt loop runs. -/
def solve (api_key : String) (attempt : ℕ)
    (env : ℕ → Option String × Option String) : Option String × ℕ :=
  if blankKey api_key then (Option.none, 0)
  else solveLoop env attempt 0 Option.none

/- ------------------------------------------------------------------
   Spec-side predicates (stated from the specification's words, to be
   compared with the source-derived definitions above)
   ------------------------------------------------------------------ -/

/-- Spec-side: the point lies within the root element's bounding box expanded
    by an 80-unit margin on every side (coordinates read as root-relative
    offsets, per the spec's test `[0, root.width] × [0, root.height]`). -/
def InExpandedRootBox (rb : Box) (pt : ℚ × ℚ) : Prop :=
  -80 ≤ pt.1 ∧ pt.1 ≤ rb.width + 80 ∧ -80 ≤ pt.2 ∧ pt.2 ≤ rb.height + 80

/-- Spec-side: the point lies within the grid's bounds expanded on each side
    by 25% of the corresponding dimension plus 40 units. -/
def WithinGridExpandedBounds (grid : Box) (px py : ℚ) : Prop :=
  -(grid.width * 25 / 100 + 40) ≤ px ∧
  px ≤ grid.width + (grid.width * 25 / 100 + 40) ∧
  -(grid.height * 25 / 100 + 40) ≤ py ∧
  py ≤ grid.height + (grid.height * 25 / 100 + 40)

instance (grid : Box) (px py : ℚ) :
    Decidable (WithinGridExpandedBounds grid px py) := by
  unfold WithinGridExpandedBounds
  infer_instance

instance (rb : Box) (pt : ℚ × ℚ) : Decidable (InExpandedRootBox rb pt) := by
  unfold InExpandedRootBox
  infer_instance

end HCaptchaSolver

namespace MouseMotion

/- ------------------------------------------------------------------
   MouseMotion  (motion.py)
   ------------------------------------------------------------------ -/

/-- math.dist between two points. -/
noncomputable def distance (s t : ℝ × ℝ) : ℝ :=
  Real.sqrt ((s.1 - t.1) ^ 2 + (s.2 - t.2) ^ 2)

/-- The default step count `max(12, min(45, int(distance / 12)))`. -/
noncomputable def default_step_count (d : ℝ) : ℕ :=
  max 12 (min 45 (Nat.floor (d / 12)))

/-- MouseMotion._build_path (motion.py lines 144-183).  `angle_draw` is the
    random.uniform(-0.9, 0.9) perturbation of the control angle; the i-th
    sampled point is jittered by `jitter * jitter_draw i` on each axis, where
    `jitter_draw` models the random.uniform(-1, 1) directions of the two
    random.uniform(-jitter, jitter) draws.  `steps = some 0` falls back to
    the default count because Python's `steps or ...` treats 0 as falsy.
    The exact target is appended last, unjittered. -/
noncomputable def build_path (start target : ℝ × ℝ) (steps : Option ℕ)
    (angle_draw : ℝ) (jitter_draw : ℕ → ℝ × ℝ) : List (ℝ × ℝ) :=
  let d := distance start target
  let step_count : ℕ :=
    match steps with
    | some (n + 1) => n + 1
    | _ => default_step_count d
  let control_scale := max (d * 0.25) 40
  let angle := Complex.arg ⟨target.1 - start.1, target.2 - start.2⟩
  let control_angle := angle + angle_draw
  let control1 : ℝ × ℝ :=
    (start.1 + Real.cos control_angle * control_scale,
     start.2 + Real.sin control_angle * control_scale)
  let control2 : ℝ × ℝ :=
    (target.1 - Real.cos control_angle * control_scale,
     target.2 - Real.sin control_angle * control_scale)
  let jitter := min 6 (max 1.2 (d / 60))
  ((List.range step_count).map fun k =>
      let t : ℝ := ((k + 1 : ℕ) : ℝ) / (step_count : ℝ)
      let bx := (1 - t) ^ 3 * start.1 + 3 * (1 - t) ^ 2 * t * control1.1 +
        3 * (1 - t) * t ^ 2 * control2.1 + t ^ 3 * target.1
      let by_ := (1 - t) ^ 3 * start.2 + 3 * (1 - t) ^ 2 * t * control1.2 +
        3 * (1 - t) * t ^ 2 * control2.2 + t ^ 3 * target.2
      (bx + jitter * (jitter_draw (k + 1)).1,
       by_ + jitter * (jitter_draw (k + 1)).2)) ++
    [target]

/-- The mutable state of a MouseMotion instance. -/
structure MotionState where
  position : Option (ℝ × ℝ)
  human_trace : Option (List (ℝ × ℝ))

/-- MouseMotion.move_to (motion.py lines 44-57): when no position exists the
    source seeds one from `_init_position` (a random viewport point, the
    `init_draw` oracle); the synthesized path is replayed move-by-move, and
    the stored position is set to the exact target. -/
noncomputable def move_to (st : MotionState) (x y : ℝ) (record_trace : Bool)
    (init_draw : ℝ × ℝ) (angle_draw : ℝ) (jitter_draw : ℕ → ℝ × ℝ) :
    MotionState :=
  let start := st.position.getD init_draw
  let path := build_path start (x, y) Option.none angle_draw jitter_draw
  { position := some (x, y),
    human_trace := if record_trace then some (start :: path) else Option.none }

/-- MouseMotion.move_direct (motion.py lines 59-77): a possible
    `_init_position` seeding is immediately overwritten by the target, so the
    resulting position is exactly the target; the delay and step count do not
    affect the state. -/
def move_direct (st : MotionState) (x y : ℝ) : MotionState :=
  { st with position := some (x, y) }

/-- MouseMotion.move_points (motion.py lines 79-86): `move_direct` per entry. -/
def move_points (st : MotionState) (points : List (ℝ × ℝ × Option ℝ)) :
    MotionState :=
  points.foldl (fun s q => move_direct s q.1 q.2.1) st

/-- MouseMotion.click (motion.py lines 88-103): move_to then button
    down/up (which do not touch the state). -/
noncomputable def click (st : MotionState) (x y : ℝ) (record_trace : Bool)
    (init_draw : ℝ × ℝ) (angle_draw : ℝ) (jitter_draw : ℕ → ℝ × ℝ) :
    MotionState :=
  move_to st x y record_trace init_draw angle_draw jitter_draw

/-- MouseMotion.drag_and_drop (motion.py lines 105-114): move_to the start,
    press, replay a path with step count `max(10, int(steps * 1.2))` (moves
    only the hardware pointer), release, and store exactly the end point. -/
noncomputable def drag_and_drop (st : MotionState) (s e : ℝ × ℝ) (steps : ℕ)
    (init_draw : ℝ × ℝ) (angle_draw : ℝ) (jitter_draw : ℕ → ℝ × ℝ) :
    MotionState :=
  let st1 := move_to st s.1 s.2 false init_draw angle_draw jitter_draw
  let _path := build_path s e (some (max 10 (steps * 12 / 10))) angle_draw
    jitter_draw
  { st1 with position := some (e.1, e.2) }

end MouseMotion

/- ==================================================================
   Theorems
   ================================================================== -/

namespace CaptchaAPIService

/-- Claim C2: create_task is claimed never to raise to its caller, returning
    None on a transport error, a non-success HTTP status, a service error
    code, or a missing task identifier.  The source, however, calls
    `response.json()` outside its try/except: on a successful HTTP response
    whose body cannot be decoded as a JSON object the decoding error
    propagates to the caller.  This theorem evaluates the code at that
    failing input. -/
theorem create_task_raises_on_invalid_json :
    create_task (CreateResponse.http true JsonBody.invalid) =
      Except.error () := rfl

/-- Claim C7: in request_human_move, every entry of the answer's path
    segments that fails structural validation (not a list/tuple of length at
    least 2) is skipped without affecting the call; and whenever flattening
    the non-empty answers list yields zero valid (x, y, delay) entries, the
    call returns None. -/
theorem request_human_move_flatten_spec :
    (∀ (e : PyVal) (xs ys : List PyVal), normalizeEntry e = Option.none →
      entriesFlatten (xs ++ e :: ys) = entriesFlatten (xs ++ ys)) ∧
    (∀ (tid : String) (kvs : List (String × PyVal)) (seg : PyVal)
        (segs : List PyVal), tid ≠ "" →
      getKey kvs "answers" = some (PyVal.lst (seg :: segs)) →
      flattenSegments (seg :: segs) = Except.ok [] →
      request_human_move (some tid) (some (PyVal.dict kvs)) =
        Except.ok Option.none) := by
  constructor
  · intro e xs ys he
    induction xs with
    | nil => simp [entriesFlatten, he]
    | cons x xs ih =>
      simp only [List.cons_append, entriesFlatten, List.append_eq, ih]
  · intro tid kvs seg segs htid hget hflat
    cases kvs with
    | nil => simp [getKey] at hget
    | cons kv rest =>
      have htr : pyTruthy (PyVal.dict (kv :: rest)) = true := rfl
      simp only [request_human_move, if_neg htid, htr, hget, hflat,
        Except.bind]
      simp

/-- Witness for C7: a structurally invalid entry (a bare number) between
    valid entries is skipped, and an answers list whose only entry set is
    invalid flattens to nothing and makes the call return None. -/
theorem request_human_move_flatten_witness :
    entriesFlatten [PyVal.lst [PyVal.num 1, PyVal.num 2], PyVal.num 3] =
      entriesFlatten [PyVal.lst [PyVal.num 1, PyVal.num 2]] ∧
    request_human_move (some "t1")
      (some (PyVal.dict [("answers",
        PyVal.lst [PyVal.dict [("path", PyVal.lst [PyVal.num 1])]])])) =
      Except.ok Option.none := by
  constructor
  · exact request_human_move_flatten_spec.1 (PyVal.num 3)
      [PyVal.lst [PyVal.num 1, PyVal.num 2]] [] rfl
  · exact request_human_move_flatten_spec.2 "t1" _ _ _ (by decide) rfl rfl

/-- The while-loop condition `elapsed <= max_wait_time` of the k-th poll in
    terms of the floor of the budget/interval ratio. -/
theorem loop_cond_iff (p W : ℚ) (hp : 0 < p) (hW : 0 ≤ W) (k : ℕ) :
    ((k : ℚ) * p ≤ W) ↔ k ≤ Nat.floor (W / p) := by
  rw [Nat.le_floor_iff (div_nonneg hW hp.le), le_div_iff hp]

/-- Behaviour of the polling loop when the first N polls are non-terminal
    and poll N is "ready" with answers: from poll k ≤ N on, the loop performs
    polls k..N and N - k sleeps. -/
theorem waitLoop_ready_eq {α : Type} (fetch : ℕ → FetchResult α) (p W : ℚ)
    (N : ℕ) (a : α) (hp : 0 < p) (hN : (N : ℚ) * p ≤ W)
    (hpre : ∀ i, i < N → nonterminal (fetch i) = true)
    (hrdy : fetch N = FetchResult.ok (some "ready") (some a)) :
    ∀ (fuel k : ℕ), k ≤ N → N + 1 ≤ k + fuel →
      waitLoop fetch false p W fuel ((k : ℚ) * p) k =
        (WaitOutcome.answers a, N + 1, List.replicate (N - k) p) := by
  intro fuel
  induction fuel with
  | zero => intro k hk hf; omega
  | succ fuel ih =>
    intro k hk hf
    have hcond : (k : ℚ) * p ≤ W := by
      refine le_trans ?_ hN
      have hkN : (k : ℚ) ≤ (N : ℚ) := by exact_mod_cast hk
      exact mul_le_mul_of_nonneg_right hkN hp.le
    rcases Nat.lt_or_ge k N with hlt | hge
    · have hnt := hpre k hlt
      rcases hfk : fetch k with _ | ⟨s, ans⟩
      · rw [hfk] at hnt; simp [nonterminal] at hnt
      · rw [hfk] at hnt
        simp only [nonterminal, decide_eq_true_eq] at hnt
        simp only [waitLoop, if_pos hcond, hfk, if_neg hnt.1, if_neg hnt.2]
        have harg : (k : ℚ) * p + p = ((k + 1 : ℕ) : ℚ) * p := by
          push_cast
          ring
        rw [harg, ih (k + 1) hlt (by omega)]
        have hrep : N - k = (N - (k + 1)) + 1 := by omega
        rw [hrep, List.replicate_succ]
    · have hkN : k = N := le_antisymm hk hge
      subst hkN
      simp only [waitLoop, if_pos hcond, hrdy, if_pos rfl, Bool.false_eq_true,
        if_false]
      simp

/-- Behaviour of the polling loop when every poll is non-terminal: from
    poll k on, polls continue through poll ⌊W/p⌋ and the loop exits with
    ⌊W/p⌋ + 1 polls in total. -/
theorem waitLoop_timeout_eq {α : Type} (fetch : ℕ → FetchResult α) (p W : ℚ)
    (hp : 0 < p) (hW : 0 ≤ W)
    (hnt : ∀ i, nonterminal (fetch i) = true) :
    ∀ (fuel k : ℕ), k ≤ Nat.floor (W / p) + 1 →
      Nat.floor (W / p) + 1 ≤ k + fuel →
      waitLoop fetch false p W fuel ((k : ℚ) * p) k =
        (WaitOutcome.none, Nat.floor (W / p) + 1,
          List.replicate (Nat.floor (W / p) + 1 - k) p) := by
  intro fuel
  induction fuel with
  | zero =>
    intro k hk hf
    have hke : k = Nat.floor (W / p) + 1 := by omega
    subst hke
    simp [waitLoop]
  | succ fuel ih =>
    intro k hk hf
    rcases Nat.lt_or_ge k (Nat.floor (W / p) + 1) with hlt | hge
    · have hkF : k ≤ Nat.floor (W / p) := by omega
      have hcond : (k : ℚ) * p ≤ W := (loop_cond_iff p W hp hW k).mpr hkF
      have h2 := hnt k
      rcases hfk : fetch k with _ | ⟨s, ans⟩
      · rw [hfk] at h2; simp [nonterminal] at h2
      · rw [hfk] at h2
        simp only [nonterminal, decide_eq_true_eq] at h2
        simp only [waitLoop, if_pos hcond, hfk, if_neg h2.1, if_neg h2.2]
        have harg : (k : ℚ) * p + p = ((k + 1 : ℕ) : ℚ) * p := by
          push_cast
          ring
        rw [harg, ih (k + 1) (by omega) (by omega)]
        have hrep : Nat.floor (W / p) + 1 - k =
            (Nat.floor (W / p) + 1 - (k + 1)) + 1 := by omega
        rw [hrep, List.replicate_succ]
    · have hke : k = Nat.floor (W / p) + 1 := by omega
      subst hke
      have hcond : ¬ (((Nat.floor (W / p) + 1 : ℕ) : ℚ) * p ≤ W) := by
        intro hc
        have := (loop_cond_iff p W hp hW (Nat.floor (W / p) + 1)).mp hc
        omega
      simp only [waitLoop, if_neg hcond]
      simp

/-- Claim C1 (amended): for every N with N·p ≤ W, if the first N polls are
    non-terminal and poll N reports "ready" with answers, wait_for_result
    performs exactly N + 1 polls separated by N sleeps of the poll interval
    and returns the answers; if the status never becomes terminal it returns
    none after exactly ⌊W/p⌋ + 1 polls (the final check happens at the
    budget boundary, so for p dividing W this is W/p + 1 polls, not
    ⌈W/p⌉). -/
theorem wait_for_result_polling {α : Type} (fetch : ℕ → FetchResult α)
    (p W : ℚ) (hp : 0 < p) (hW : 0 ≤ W) :
    (∀ (N : ℕ) (a : α), (N : ℚ) * p ≤ W →
      (∀ i, i < N → nonterminal (fetch i) = true) →
      fetch N = FetchResult.ok (some "ready") (some a) →
      wait_for_result fetch false p W =
        (WaitOutcome.answers a, N + 1, List.replicate N p)) ∧
    ((∀ i, nonterminal (fetch i) = true) →
      wait_for_result fetch false p W =
        (WaitOutcome.none, Nat.floor (W / p) + 1,
          List.replicate (Nat.floor (W / p) + 1) p)) := by
  constructor
  · intro N a hN hpre hrdy
    have hNF : N ≤ Nat.floor (W / p) := (loop_cond_iff p W hp hW N).mp hN
    have h := waitLoop_ready_eq fetch p W N a hp hN hpre hrdy
      (Nat.floor (W / p) + 2) 0 (Nat.zero_le N) (by omega)
    unfold wait_for_result
    simpa using h
  · intro hnt
    have h := waitLoop_timeout_eq fetch p W hp hW hnt
      (Nat.floor (W / p) + 2) 0 (by omega) (by omega)
    unfold wait_for_result
    simpa using h

/-- Witness for C1: with interval 1 and budget 3, two "processing" polls
    followed by a "ready" poll yield the answers after 3 polls and 2 sleeps;
    permanent "processing" yields none after ⌊3/1⌋ + 1 polls. -/
theorem wait_for_result_polling_witness :
    wait_for_result
      (fun i => if i < 2 then FetchResult.ok (some "processing") Option.none
        else FetchResult.ok (some "ready") (some (42 : ℕ))) false 1 3 =
      (WaitOutcome.answers 42, 3, List.replicate 2 1) ∧
    wait_for_result
      (fun _ => FetchResult.ok (some "processing") (Option.none : Option ℕ))
      false 1 3 =
      (WaitOutcome.none, Nat.floor ((3 : ℚ) / 1) + 1,
        List.replicate (Nat.floor ((3 : ℚ) / 1) + 1) 1) := by
  constructor
  · exact (wait_for_result_polling _ 1 3 (by norm_num) (by norm_num)).1 2 42
      (by norm_num) (by decide) (by norm_num)
  · exact (wait_for_result_polling _ 1 3 (by norm_num) (by norm_num)).2
      (fun i => rfl)

/-- Counterexample for C1 as frozen: with the poll interval dividing the
    budget (p = 1, W = 15, the defaults), permanent "processing" produces 16
    polls — the loop condition `elapsed <= max_wait_time` admits the final
    check at the boundary — whereas the claim's ceil(max_wait/poll_interval)
    formula predicts 15. -/
theorem wait_for_result_ceil_counterexample :
    (wait_for_result
      (fun _ => FetchResult.ok (some "processing") (Option.none : Option ℕ))
      false 1 15).2.1 = 16 ∧
    Nat.ceil ((15 : ℚ) / 1) = 15 := by
  constructor
  · have h := waitLoop_timeout_eq
      (fun _ => FetchResult.ok (some "processing") (Option.none : Option ℕ))
      1 15 (by norm_num) (by norm_num) (fun i => rfl)
      (Nat.floor ((15 : ℚ) / 1) + 2) 0 (by omega) (by omega)
    unfold wait_for_result
    have hF : Nat.floor ((15 : ℚ) / 1) = 15 := by norm_num
    rw [show ((0 : ℕ) : ℚ) * 1 = 0 by norm_num] at h
    rw [h, hF]
  · norm_num

end CaptchaAPIService

namespace HCaptchaSolver

/-- Claim C4: in a Grid answer batch each individual coordinate is converted
    as grid-relative (offset by the grid box origin) exactly when it lies
    within the grid's bounds expanded on each side by 25% of the
    corresponding dimension plus 40 units, and as frame-relative otherwise. -/
theorem grid_point_classification :
    ∀ (grid : Box) (fox foy : ℚ) (cr : Bool) (px py : ℚ),
      (WithinGridExpandedBounds grid px py →
        point_converter "Grid" grid fox foy cr px py =
          (grid.x + px, grid.y + py)) ∧
      (¬ WithinGridExpandedBounds grid px py →
        point_converter "Grid" grid fox foy cr px py =
          (fox + px, foy + py)) := by
  intro grid fox foy cr px py
  have hx : grid.width * (0.25 : ℚ) + 40 = grid.width * 25 / 100 + 40 := by
    rw [show (0.25 : ℚ) = 25 / 100 by norm_num]
    ring
  have hy : grid.height * (0.25 : ℚ) + 40 = grid.height * 25 / 100 + 40 := by
    rw [show (0.25 : ℚ) = 25 / 100 by norm_num]
    ring
  have hcond_iff :
      (-(grid.width * 0.25 + 40) ≤ px ∧
        px ≤ grid.width + (grid.width * 0.25 + 40) ∧
        -(grid.height * 0.25 + 40) ≤ py ∧
        py ≤ grid.height + (grid.height * 0.25 + 40)) ↔
      WithinGridExpandedBounds grid px py := by
    unfold WithinGridExpandedBounds
    rw [hx, hy]
  constructor
  · intro h
    simp only [point_converter]
    rw [if_pos trivial, if_pos (hcond_iff.mpr h)]
  · intro h
    simp only [point_converter]
    rw [if_pos trivial, if_neg (fun hc => h (hcond_iff.mp hc))]

/-- Claim C3 (amended): the batch-wide root/frame classifier returns
    root-relative exactly when the root box has positive width and height and
    every path/start/end coordinate across all actions lies within the root
    box expanded by an 80-unit margin on every side; a degenerate root box
    always classifies frame-relative. -/
theorem is_canvas_path_relative_iff :
    ∀ (actions : List Action) (rb : Box),
      is_canvas_path_relative actions rb = true ↔
        (0 < rb.width ∧ 0 < rb.height ∧
          ∀ a ∈ actions, ∀ pt ∈ actionClassifierPoints a,
            InExpandedRootBox rb pt) := by
  intro actions rb
  unfold is_canvas_path_relative
  split_ifs with hdeg
  · constructor
    · intro h
      exact absurd h (by simp)
    · rintro ⟨hw, hh, -⟩
      rcases hdeg with h | h <;> linarith
  · push_neg at hdeg
    obtain ⟨hw, hh⟩ := hdeg
    simp only [List.all_eq_true, Bool.not_eq_true', decide_eq_false_iff_not]
    constructor
    · intro h
      refine ⟨hw, hh, fun a ha pt hpt => ?_⟩
      have h2 := h a ha pt hpt
      push_neg at h2
      exact ⟨h2.1, h2.2.2.1, h2.2.1, h2.2.2.2⟩
    · rintro ⟨-, -, h⟩ a ha pt hpt
      have h2 := h a ha pt hpt
      obtain ⟨g1, g2, g3, g4⟩ := h2
      push_neg
      exact ⟨g1, g3, g2, g4⟩

/-- Counterexample for C3 as frozen: with a degenerate root box (width and
    height 0) and a single action whose only coordinate (0, 0) lies inside
    the box expanded by the 80-unit margin, the classifier still selects
    frame-relative, so "root-relative exactly when every coordinate is within
    the expanded box" fails without the positive-dimensions condition. -/
theorem is_canvas_path_relative_degenerate_counterexample :
    is_canvas_path_relative
      [⟨Option.none, some (PyVal.lst [PyVal.lst [PyVal.num 0, PyVal.num 0]]),
        Option.none, Option.none, Option.none⟩] ⟨5, 5, 0, 0⟩ = false ∧
    actionClassifierPoints
      ⟨Option.none, some (PyVal.lst [PyVal.lst [PyVal.num 0, PyVal.num 0]]),
        Option.none, Option.none, Option.none⟩ = [(0, 0)] ∧
    InExpandedRootBox ⟨5, 5, 0, 0⟩ (0, 0) := by
  refine ⟨?_, rfl, ?_⟩
  · norm_num [is_canvas_path_relative]
  · norm_num [InExpandedRootBox]

/-- Witness for C4 at the spec's probe points: with a 100×80 grid at (7, 11)
    and frame offset (3, 4), the point (width·1.1, height·0.5) = (110, 40)
    classifies grid-relative and (2·width, 2·height) = (200, 160) classifies
    frame-relative. -/
theorem grid_point_classification_witness :
    point_converter "Grid" ⟨7, 11, 100, 80⟩ 3 4 false 110 40 = (117, 51) ∧
    point_converter "Grid" ⟨7, 11, 100, 80⟩ 3 4 false 200 160 = (203, 164) := by
  constructor
  · rw [(grid_point_classification ⟨7, 11, 100, 80⟩ 3 4 false 110 40).1
      (by norm_num [WithinGridExpandedBounds])]
    norm_num
  · rw [(grid_point_classification ⟨7, 11, 100, 80⟩ 3 4 false 200 160).2
      (by norm_num [WithinGridExpandedBounds])]
    norm_num

/-- The attempt loop enters at most its fuel's worth of iterations. -/
theorem solveLoop_count_le (env : ℕ → Option String × Option String) :
    ∀ (n done : ℕ) (token : Option String),
      (solveLoop env n done token).2 ≤ done + n := by
  intro n
  induction n with
  | zero => intro done token; simp [solveLoop]
  | succ n ih =>
    intro done token
    cases token with
    | some t => simp [solveLoop]
    | none =>
      cases h : (env done).1 with
      | some t => simp [solveLoop, h]
      | none =>
        simp only [solveLoop, h]
        have := ih (done + 1) (env done).2
        omega

/-- With no token from any probe and none captured, the loop runs to
    exhaustion and returns none. -/
theorem solveLoop_all_nothing (env : ℕ → Option String × Option String)
    (henv : ∀ i, env i = (Option.none, Option.none)) :
    ∀ (n done : ℕ),
      solveLoop env n done Option.none = (Option.none, done + n) := by
  intro n
  induction n with
  | zero => intro done; simp [solveLoop]
  | succ n ih =>
    intro done
    have h1 : (env done).1 = Option.none := by rw [henv]
    have h2 : (env done).2 = Option.none := by rw [henv]
    simp only [solveLoop, h1, h2, ih]
    have : done + 1 + n = done + (n + 1) := by omega
    rw [this]

/-- One unfolding step of the attempt loop when the probe yields nothing. -/
theorem solveLoop_step (env : ℕ → Option String × Option String)
    (n done : ℕ) (h1 : (env done).1 = Option.none) :
    solveLoop env (n + 1) done Option.none =
      solveLoop env n (done + 1) (env done).2 := by
  have h : solveLoop env (n + 1) done Option.none =
      (match (env done).1 with
       | some t => (some t, done + 1)
       | Option.none => solveLoop env n (done + 1) (env done).2) := rfl
  rw [h, h1]

/-- If no probe ever yields a token and a token is captured only during the
    final iteration, the loop exhausts its budget and returns that token. -/
theorem solveLoop_captured_last (env : ℕ → Option String × Option String)
    (t : String) (henv1 : ∀ i, (env i).1 = Option.none) :
    ∀ (n done : ℕ),
      (∀ i, i + 1 < done + n + 1 → (env i).2 = Option.none) →
      (env (done + n)).2 = some t →
      solveLoop env (n + 1) done Option.none = (some t, done + n + 1) := by
  intro n
  induction n with
  | zero =>
    intro done hnone hlast
    simp only [Nat.add_zero] at hlast
    rw [solveLoop_step env 0 done (henv1 done)]
    simp [solveLoop, hlast]
  | succ n ih =>
    intro done hnone hlast
    have h2 : (env done).2 = Option.none := hnone done (by omega)
    rw [solveLoop_step env (n + 1) done (henv1 done), h2]
    have harg : done + 1 + n = done + (n + 1) := by omega
    have h := ih (done + 1) (fun i hi => hnone i (by omega))
      (by rw [harg]; exact hlast)
    rw [h]
    have harg2 : done + 1 + n + 1 = done + (n + 1) + 1 := by omega
    rw [harg2]

/-- Claim C8: solve() with an empty or blank credential returns none before
    any attempt iteration; with a valid credential it enters at most the
    configured attempt count of iterations; when nothing ever resolves it
    returns none after exactly the full budget; and when a token is captured
    out-of-band during the final iteration, exhausting the budget returns
    that captured token. -/
theorem solve_budget_spec :
    (∀ (k : String) (n : ℕ) (env : ℕ → Option String × Option String),
      blankKey k = true → solve k n env = (Option.none, 0)) ∧
    (∀ (k : String) (n : ℕ) (env : ℕ → Option String × Option String),
      (solve k n env).2 ≤ n) ∧
    (∀ (k : String) (n : ℕ) (env : ℕ → Option String × Option String),
      blankKey k = false → (∀ i, env i = (Option.none, Option.none)) →
      solve k n env = (Option.none, n)) ∧
    (∀ (k : String) (n : ℕ) (env : ℕ → Option String × Option String)
        (t : String),
      blankKey k = false → (∀ i, (env i).1 = Option.none) →
      (∀ i, i + 1 < n → (env i).2 = Option.none) → 0 < n →
      (env (n - 1)).2 = some t → solve k n env = (some t, n)) := by
  refine ⟨?_, ?_, ?_, ?_⟩
  · intro k n env h
    simp [solve, h]
  · intro k n env
    unfold solve
    split_ifs
    · simp
    · have := solveLoop_count_le env n 0 Option.none
      simpa using this
  · intro k n env hk henv
    unfold solve
    rw [if_neg (by simp [hk])]
    simpa using solveLoop_all_nothing env henv n 0
  · intro k n env t hk henv1 hnone hpos hlast
    unfold solve
    rw [if_neg (by simp [hk])]
    cases n with
    | zero => omega
    | succ m =>
      have h := solveLoop_captured_last env t henv1 m 0
        (fun i hi => hnone i (by omega))
        (by simpa using hlast)
      simpa using h

/-- Witness for C8: a blank key aborts with zero iterations; with the key
    "key", an attempt budget of 3 and nothing ever resolving, solve returns
    none after exactly 3 iterations; and a token captured during the third
    iteration is returned on exhaustion. -/
theorem solve_budget_witness :
    solve " " 3 (fun _ => (Option.none, Option.none)) = (Option.none, 0) ∧
    solve "key" 3 (fun _ => (Option.none, Option.none)) = (Option.none, 3) ∧
    solve "key" 3
      (fun i => (Option.none, if i = 2 then some "tok" else Option.none)) =
      (some "tok", 3) := by
  refine ⟨solve_budget_spec.1 " " 3 _ (by decide),
    solve_budget_spec.2.2.1 "key" 3 _ (by decide) (fun i => rfl),
    solve_budget_spec.2.2.2 "key" 3 _ "tok" (by decide) (fun i => rfl)
      ?_ (by decide) rfl⟩
  intro i hi
  match i, hi with
  | 0, _ => rfl
  | 1, _ => rfl

/-- Claim C10 (amended): in the Grid flat-index path, every index greater
    than or equal to the tile count is skipped without any click; a negative
    index with `-len(tiles) ≤ index` is not rejected and selects the tile
    counted from the end of the tile list (index -1 clicks the last tile,
    center-jittered); an index below `-len(tiles)` raises IndexError instead
    of selecting a tile. -/
theorem click_grid_tiles_indexing :
    (∀ (tiles : List (Option Box)) (jitter : ℕ → ℚ × ℚ) (i : ℤ)
        (rest : List ℤ) (clicks : ℕ), (tiles.length : ℤ) ≤ i →
      clickTilesLoop tiles (i :: rest) jitter clicks =
        clickTilesLoop tiles rest jitter clicks) ∧
    (∀ (tiles : List (Option Box)) (jitter : ℕ → ℚ × ℚ) (i : ℤ) (box : Box),
      i < 0 → 0 ≤ (tiles.length : ℤ) + i →
      tiles.get? ((tiles.length : ℤ) + i).toNat = some (some box) →
      click_grid_tiles tiles [i] jitter =
        Except.ok [MEv.moveDirect (box.x + box.width / 2 + (jitter 0).1)
          (box.y + box.height / 2 + (jitter 0).2) Option.none,
          MEv.clickHere]) ∧
    (∀ (tiles : List (Option Box)) (jitter : ℕ → ℚ × ℚ) (box : Box),
      tiles.getLast? = some (some box) →
      click_grid_tiles tiles [-1] jitter =
        Except.ok [MEv.moveDirect (box.x + box.width / 2 + (jitter 0).1)
          (box.y + box.height / 2 + (jitter 0).2) Option.none,
          MEv.clickHere]) := by
  have hskip : ∀ (tiles : List (Option Box)) (jitter : ℕ → ℚ × ℚ) (i : ℤ)
      (rest : List ℤ) (clicks : ℕ), (tiles.length : ℤ) ≤ i →
      clickTilesLoop tiles (i :: rest) jitter clicks =
        clickTilesLoop tiles rest jitter clicks := by
    intro tiles jitter i rest clicks h
    simp only [clickTilesLoop, if_pos h]
  have hneg : ∀ (tiles : List (Option Box)) (jitter : ℕ → ℚ × ℚ) (i : ℤ)
      (box : Box), i < 0 → 0 ≤ (tiles.length : ℤ) + i →
      tiles.get? ((tiles.length : ℤ) + i).toNat = some (some box) →
      click_grid_tiles tiles [i] jitter =
        Except.ok [MEv.moveDirect (box.x + box.width / 2 + (jitter 0).1)
          (box.y + box.height / 2 + (jitter 0).2) Option.none,
          MEv.clickHere] := by
    intro tiles jitter i box hi hge hget
    have hlt : ¬ ((tiles.length : ℤ) ≤ i) := by omega
    unfold click_grid_tiles
    simp only [clickTilesLoop, if_neg hlt]
    unfold pyListIndex
    simp only [if_pos hi, if_pos hge, hget]
    simp [clickTilesLoop, Except.bind]
  refine ⟨hskip, hneg, ?_⟩
  intro tiles jitter box hgl
  cases tiles with
  | nil => simp at hgl
  | cons t ts =>
    have hlen : 0 < (t :: ts).length := by simp
    refine hneg (t :: ts) jitter (-1) box (by omega) (by omega) ?_
    have hidx : (((t :: ts).length : ℤ) + (-1)).toNat =
        (t :: ts).length - 1 := by omega
    rw [hidx, ← List.getLast?_eq_get?]
    exact hgl

/-- Witness for C10: with two tiles, index -1 clicks the center of the last
    tile offset by the jitter draw; the skip conjunct applies at an index
    equal to the tile count. -/
theorem click_grid_tiles_indexing_witness :
    click_grid_tiles [some ⟨0, 0, 10, 10⟩, some ⟨20, 0, 10, 10⟩] [-1]
      (fun _ => (1, 2)) =
      Except.ok [MEv.moveDirect (20 + 10 / 2 + 1) (0 + 10 / 2 + 2)
        Option.none, MEv.clickHere] ∧
    clickTilesLoop [some ⟨0, 0, 10, 10⟩] [(1 : ℤ)] (fun _ => (1, 2)) 0 =
      clickTilesLoop [some ⟨0, 0, 10, 10⟩] [] (fun _ => (1, 2)) 0 := by
  constructor
  · exact click_grid_tiles_indexing.2.2 [some ⟨0, 0, 10, 10⟩,
      some ⟨20, 0, 10, 10⟩] (fun _ => (1, 2)) ⟨20, 0, 10, 10⟩ rfl
  · exact click_grid_tiles_indexing.1 [some ⟨0, 0, 10, 10⟩] (fun _ => (1, 2))
      1 [] 0 (by decide)

/-- Counterexample for C10 as frozen: with nine tiles, the negative index
    -10 (below -len) does not select any tile counted from the end — the
    subscript raises IndexError, aborting the batch. -/
theorem click_grid_tiles_negative_out_of_range_counterexample :
    click_grid_tiles (List.replicate 9 (some ⟨0, 0, 10, 10⟩)) [-10]
      (fun _ => (0, 0)) = Except.error () := by
  rfl

/-- Claim C6 (amended): during execution of a structured action batch, a
    non-drag action whose converted path is non-empty and whose FINAL point
    lands inside the submit control's bounding box short-circuits to a direct
    click at that point (after replaying the path), instead of the generic
    grid/canvas handling; only that final point of non-drag actions is tested
    against the submit box. -/
theorem submit_shortcircuit_final_point :
    ∀ (request_type : String) (root_box submit_box : Box) (fox foy : ℚ)
      (cr : Bool) (a : Action) (l : List (ℚ × ℚ × Option ℚ))
      (q : ℚ × ℚ × Option ℚ),
      a.type.getD "" ≠ "drag" →
      action_converted_path
        (point_converter request_type root_box fox foy cr)
        (a.type.getD "") a = Except.ok l →
      l.getLast? = some q →
      point_inside_box submit_box q.1 q.2.1 = true →
      execActionStep request_type root_box submit_box fox foy cr a =
        Except.ok ((l.map fun r => MEv.moveDirect r.1 r.2.1 r.2.2) ++
          [MEv.moveDirect q.1 q.2.1 Option.none, MEv.clickHere],
          some (q.1, q.2.1), true) := by
  intro rt rb sb fox foy cr a l q hdrag hconv hlast hin
  simp only [execActionStep, hconv, Except.bind, if_neg hdrag, hlast, hin,
    if_true]

/-- Witness for C6: a Canvas "click" action whose single converted point
    (105, 105) lies inside the submit box is executed as a direct click
    there. -/
theorem submit_shortcircuit_final_point_witness :
    execActionStep "Canvas" ⟨100, 100, 50, 50⟩ ⟨100, 100, 20, 20⟩ 0 0 true
      ⟨some "click", some (PyVal.lst [PyVal.lst [PyVal.num 5, PyVal.num 5]]),
        Option.none, Option.none, Option.none⟩ =
      Except.ok ([MEv.moveDirect 105 105 Option.none,
        MEv.moveDirect 105 105 Option.none, MEv.clickHere],
        some (105, 105), true) := by
  have h := submit_shortcircuit_final_point "Canvas" ⟨100, 100, 50, 50⟩
    ⟨100, 100, 20, 20⟩ 0 0 true
    ⟨some "click", some (PyVal.lst [PyVal.lst [PyVal.num 5, PyVal.num 5]]),
      Option.none, Option.none, Option.none⟩ [(105, 105, Option.none)]
    (105, 105, Option.none) (by decide)
    (by norm_num [action_converted_path, action_raw_path,
      convert_action_path, point_converter, pyFloat, Except.bind,
      List.filterMap_cons, List.filterMap_nil]) rfl
    (by norm_num [point_inside_box])
  simpa using h

/-- Counterexample for C6 as frozen: in a Grid batch, a "click" action whose
    FIRST converted path point (15, 15) lies inside the submit box is not
    short-circuited — the action is processed generically (the pointer moves
    through the path and a grid-coordinate click happens at the final point,
    with no click at all at (15, 15)). -/
theorem submit_shortcircuit_intermediate_counterexample :
    execActionStep "Grid" ⟨0, 0, 100, 100⟩ ⟨10, 10, 20, 20⟩ 0 0 false
      ⟨some "click", some (PyVal.lst [PyVal.lst [PyVal.num 15, PyVal.num 15],
        PyVal.lst [PyVal.num 90, PyVal.num 90]]),
        Option.none, Option.none, Option.none⟩ =
      Except.ok ([MEv.moveDirect 15 15 Option.none,
        MEv.moveDirect 90 90 Option.none, MEv.gridCoordinateClick 90 90],
        some (90, 90), true) ∧
    point_inside_box ⟨10, 10, 20, 20⟩ 15 15 = true ∧
    MEv.clickHere ∉ [MEv.moveDirect 15 15 (Option.none : Option ℚ),
      MEv.moveDirect 90 90 Option.none, MEv.gridCoordinateClick 90 90] := by
  refine ⟨?_, by norm_num [point_inside_box], by decide⟩
  norm_num [execActionStep, action_converted_path, action_raw_path,
    convert_action_path, point_converter, point_inside_box, pyFloat,
    Except.bind, perform_drag_events, List.filterMap_cons,
    List.filterMap_nil, List.getLast?_singleton, List.getLast?_cons_cons]
  decide

end HCaptchaSolver

namespace MouseMotion

/-- Claim C5: for every start/end pair the built path ends with the exact,
    unjittered end point (for any requested step count), and with no explicit
    step count it holds clamp(⌊distance/12⌋, 12, 45) sampled points plus the
    appended end point, so its length lies in [13, 46]. -/
theorem build_path_endpoint_and_length :
    ∀ (s t : ℝ × ℝ) (steps : Option ℕ) (ad : ℝ) (jd : ℕ → ℝ × ℝ),
      (build_path s t steps ad jd).getLast? = some t ∧
      (build_path s t Option.none ad jd).length =
        max 12 (min 45 (Nat.floor (distance s t / 12))) + 1 ∧
      13 ≤ (build_path s t Option.none ad jd).length ∧
      (build_path s t Option.none ad jd).length ≤ 46 := by
  intro s t steps ad jd
  have hlen : (build_path s t Option.none ad jd).length =
      max 12 (min 45 (Nat.floor (distance s t / 12))) + 1 := by
    simp [build_path, default_step_count]
  refine ⟨?_, hlen, ?_, ?_⟩
  · simp [build_path]
  · rw [hlen]; omega
  · rw [hlen]; omega

/-- Claim C9: after every completed pointer operation the stored position is
    exactly the requested target point, for every random draw (so never a
    jittered intermediate point). -/
theorem position_exact_after_ops :
    (∀ (st : MotionState) (x y : ℝ) (rec : Bool) (init : ℝ × ℝ) (ad : ℝ)
        (jd : ℕ → ℝ × ℝ),
      (move_to st x y rec init ad jd).position = some (x, y)) ∧
    (∀ (st : MotionState) (x y : ℝ),
      (move_direct st x y).position = some (x, y)) ∧
    (∀ (st : MotionState) (s e : ℝ × ℝ) (n : ℕ) (init : ℝ × ℝ) (ad : ℝ)
        (jd : ℕ → ℝ × ℝ),
      (drag_and_drop st s e n init ad jd).position = some (e.1, e.2)) ∧
    (∀ (st : MotionState) (x y : ℝ) (rec : Bool) (init : ℝ × ℝ) (ad : ℝ)
        (jd : ℕ → ℝ × ℝ),
      (click st x y rec init ad jd).position = some (x, y)) ∧
    (∀ (st : MotionState) (pts : List (ℝ × ℝ × Option ℝ))
        (q : ℝ × ℝ × Option ℝ),
      (move_points st (pts ++ [q])).position = some (q.1, q.2.1)) := by
  refine ⟨fun _ _ _ _ _ _ _ => rfl, fun _ _ _ => rfl,
    fun _ _ _ _ _ _ _ => rfl, fun _ _ _ _ _ _ _ => rfl, ?_⟩
  intro st pts q
  simp [move_points, move_direct, List.foldl_append]

end MouseMotion
